import Mathlib

/-!
Shallow embedding of `src/programs/bundle-manager/src/lib.rs` (a Solana
program managing bundle records under a manager record), together with
theorems checking the natural-language specification against it.

Modelling conventions:
- `Pubkey` values are modelled as `Nat` keys.
- Machine integers (`u8`, `u16`, `u32`, `i64`) are modelled as `Nat`/`Int`;
  where the source performs arithmetic that can overflow (`+=` on `u16`
  `active_bundles` and `u32` `bundle_seed`, and the `as u8` cast of
  `wallet_indexes.len()`), the wrap-around of the release build is made
  explicit with `% 2^16`, `% 2^32`, `% 2^8` (the crate configures no
  overflow checks, so the release default of two's-complement wrapping
  applies).
- An instruction handler is a pure function returning
  `Except ProgErr σ`: on `Except.ok` the returned records are the ones
  serialized back to the accounts; on `Except.error` the Solana runtime
  rolls the whole transaction back, so no record is mutated. This matches
  the write-after-validate shape of the handlers.
- Account provisioning (`invoke(create_account ...)`), rent, and borsh
  encoding/decoding are the external collaborators of the spec (Storage
  Provisioner and Record Codec); they are not modelled. A handler that
  deserializes a record receives it already decoded, and the account-level
  metadata the handler inspects (`key`, `owner`, `is_signer`) is passed as
  an `AccountMeta`.
-/

namespace BundleBots

/-- Bundle status enum, exactly the four variants of `BundleStatus` in
`lib.rs` (the source enum has no `Populating` variant). -/
inductive BundleStatus where
  | Created
  | Executing
  | Executed
  | Failed
deriving DecidableEq, Repr

/-- The `BundleManager` record of `lib.rs`. `authority` is a pubkey
(modelled as `Nat`); `bundle_size`, `priority_fee_multiplier` are `u8`;
`active_bundles` is `u16`; `total_bundles_executed` and `bundle_seed` are
`u32`. -/
structure BundleManager where
  authority : Nat
  bundle_size : Nat
  priority_fee_multiplier : Nat
  active_bundles : Nat
  total_bundles_executed : Nat
  is_paused : Bool
  bundle_seed : Nat
deriving DecidableEq, Repr

/-- The `Bundle` record of `lib.rs`. Timestamps are `i64` (modelled as
`Int`, 0 = unset); `wallet_count` is `u8`; the two vectors hold `u8`
entries. -/
structure Bundle where
  manager : Nat
  authority : Nat
  bundle_id : Nat
  created_at : Int
  execution_started_at : Int
  execution_completed_at : Int
  wallet_count : Nat
  wallet_indexes : List Nat
  instructions_per_wallet : List Nat
  status : BundleStatus
  priority_fee : Nat
deriving DecidableEq, Repr

/-- `InstructionAccountMeta` of `lib.rs`. -/
structure InstructionAccountMeta where
  pubkey : Nat
  is_signer : Bool
  is_writable : Bool
deriving DecidableEq, Repr

/-- The per-instruction record (the second `BundleInstruction` struct of
`lib.rs`, holding one accumulated sub-instruction of a bundle). -/
structure InstructionRecord where
  bundle : Nat
  wallet_index : Nat
  instruction_data : List Nat
  accounts : List InstructionAccountMeta
  executed : Bool
deriving DecidableEq, Repr

/-- The account-level metadata a handler inspects on an `AccountInfo`:
its address, its owning program, and whether it signed the transaction. -/
structure AccountMeta where
  key : Nat
  owner : Nat
  is_signer : Bool
deriving DecidableEq, Repr

/-- Error values a handler can return. The first four are the
`ProgramError` variants used by `lib.rs` (`Custom 1` = ManagerPaused,
`Custom 2` = TooManyWallets, `Custom 3` = InvalidInstructionCount, per the
source comments). The remaining variants name the error kinds the spec
prescribes for the stubbed handlers; no handler in the source ever
produces them. -/
inductive ProgErr where
  | IncorrectProgramId
  | InvalidAccountData
  | MissingRequiredSignature
  | Custom : Nat → ProgErr
  | Unauthorized
  | InvalidState
  | IncompleteBundle
  | ComputeBudgetExceeded
deriving DecidableEq, Repr

/-- Embedding of `process_initialize` (called `process_init` here because
the tooling reserves the suffix of the source name). Mirrors `lib.rs`
lines 149-206: if the manager account is not yet owned by the program, the
authority must have signed (`MissingRequiredSignature` otherwise) and the
account is provisioned (external); then — in all cases, with no check of
any existing record — a fresh `BundleManager` bound to the presented
authority key, with zeroed counters, is written to the account. The
returned record is what the handler serializes back. -/
def process_init (program_id : Nat) (bundle_manager_account : AccountMeta)
    (authority : AccountMeta) (bundle_size : Nat)
    (priority_fee_multiplier : Nat) : Except ProgErr BundleManager :=
  if bundle_manager_account.owner ≠ program_id ∧ authority.is_signer = false then
    .error .MissingRequiredSignature
  else
    .ok { authority := authority.key
          bundle_size := bundle_size
          priority_fee_multiplier := priority_fee_multiplier
          active_bundles := 0
          total_bundles_executed := 0
          is_paused := false
          bundle_seed := 0 }

/-- Embedding of `process_create_bundle`, `lib.rs` lines 208-297.
`bundle_manager` is the record decoded from the manager account, `now` the
clock value. Check order follows the source exactly: owner check, pause
check, length cap (`> 20` → `Custom 2`), length mismatch (`Custom 3`),
signer check; then the new `Bundle` is built (with `bundle_id` taken from
the pre-call `bundle_seed`, `priority_fee` hard-coded 0) and the manager
counters are bumped. Success returns both updated records, which the
handler serializes back in the same instruction. -/
def process_create_bundle (program_id : Nat)
    (bundle_manager_account : AccountMeta) (bundle_manager : BundleManager)
    (authority : AccountMeta) (wallet_indexes : List Nat)
    (instructions_per_wallet : List Nat) (now : Int) :
    Except ProgErr (BundleManager × Bundle) :=
  if bundle_manager_account.owner ≠ program_id then
    .error .IncorrectProgramId
  else if bundle_manager.is_paused = true then
    .error (.Custom 1)
  else if wallet_indexes.length > 20 then
    .error (.Custom 2)
  else if wallet_indexes.length ≠ instructions_per_wallet.length then
    .error (.Custom 3)
  else if authority.is_signer = false then
    .error .MissingRequiredSignature
  else
    let bundle : Bundle :=
      { manager := bundle_manager_account.key
        authority := authority.key
        bundle_id := bundle_manager.bundle_seed
        created_at := now
        execution_started_at := 0
        execution_completed_at := 0
        wallet_count := wallet_indexes.length % 256
        wallet_indexes := wallet_indexes
        instructions_per_wallet := instructions_per_wallet
        status := .Created
        priority_fee := 0 }
    let bundle_manager2 : BundleManager :=
      { bundle_manager with
        active_bundles := (bundle_manager.active_bundles + 1) % 65536
        bundle_seed := (bundle_manager.bundle_seed + 1) % 4294967296 }
    .ok (bundle_manager2, bundle)

/-- Number of `InstructionRecord`s already recorded under a bundle for a
given wallet index. -/
def recordedCount (recs : List InstructionRecord) (w : Nat) : Nat :=
  (recs.filter (fun r => r.wallet_index == w)).length

/-- Completeness check of spec section 4.5 step 3: every declared wallet
has exactly its declared number of recorded instructions. -/
def bundleComplete (b : Bundle) (recs : List InstructionRecord) : Bool :=
  (b.wallet_indexes.zip b.instructions_per_wallet).all
    (fun wc => recordedCount recs wc.1 == wc.2)

/-- Embedding of `process_set_manager_status`, `lib.rs` lines 323-330.
The handler body is a stub: it logs and returns `Ok(())` without reading
or writing any account. Accordingly, whatever manager record the writable
account holds is left exactly as it was and the `is_paused` argument is
ignored; no error path exists. -/
def process_set_manager_status (bundle_manager : BundleManager)
    (_is_paused : Bool) : Except ProgErr BundleManager :=
  .ok bundle_manager

/-- Embedding of `process_execute_bundle`, `lib.rs` lines 314-321. The
handler body is a stub: it logs and returns `Ok(())` without reading or
writing any account, so the manager and bundle records are left exactly
as they were, the `max_compute_units` argument is ignored, and no error
path (in particular no `IncompleteBundle`) exists. -/
def process_execute_bundle (bundle_manager : BundleManager) (b : Bundle)
    (_max_compute_units : Nat) : Except ProgErr (BundleManager × Bundle) :=
  .ok (bundle_manager, b)

/-- The manager record produced by a successful `process_create_bundle`
on `bundle_manager`. -/
def createdManager (bundle_manager : BundleManager) : BundleManager :=
  { bundle_manager with
    active_bundles := (bundle_manager.active_bundles + 1) % 65536
    bundle_seed := (bundle_manager.bundle_seed + 1) % 4294967296 }

/-- The bundle record produced by a successful `process_create_bundle`. -/
def createdBundle (bundle_manager_account : AccountMeta)
    (bundle_manager : BundleManager) (authority : AccountMeta)
    (wallet_indexes : List Nat) (instructions_per_wallet : List Nat)
    (now : Int) : Bundle :=
  { manager := bundle_manager_account.key
    authority := authority.key
    bundle_id := bundle_manager.bundle_seed
    created_at := now
    execution_started_at := 0
    execution_completed_at := 0
    wallet_count := wallet_indexes.length % 256
    wallet_indexes := wallet_indexes
    instructions_per_wallet := instructions_per_wallet
    status := .Created
    priority_fee := 0 }

/-- `true` exactly on the success outcome of a `CreateBundle` call. -/
def createOk (r : Except ProgErr (BundleManager × Bundle)) : Bool :=
  match r with
  | .ok _ => true
  | .error _ => false

/-- Concrete manager fixture: authority key 1, `bundle_size` 4, multiplier
2, 3 active bundles, nothing executed, not paused, next sequence 9. -/
def mgrX : BundleManager := ⟨1, 4, 2, 3, 0, false, 9⟩

/-- Concrete manager-account fixture: address 5, owned by program 7. -/
def accX : AccountMeta := ⟨5, 7, false⟩

/-- Concrete authority fixture matching `mgrX.authority`, signing. -/
def authX : AccountMeta := ⟨1, 0, true⟩

/-- Concrete manager fixture with `bundle_size` 1. -/
def mgrSmall : BundleManager := ⟨1, 1, 2, 0, 0, false, 0⟩

/-- Concrete bundle fixture: two declared wallets `[0, 1]` expecting
`[2, 1]` instructions, authority key 1, still `Created`. -/
def bundleX : Bundle := ⟨5, 1, 9, 0, 0, 0, 2, [0, 1], [2, 1], .Created, 0⟩

/-- Concrete instruction-record fixture for wallet 0 of `bundleX`. -/
def recX : InstructionRecord := ⟨8, 0, [], [], false⟩

/-- Success characterization of `process_create_bundle`: the call returns
`ok` exactly when every guard passes, and then the result is the pair
`(createdManager, createdBundle)`. -/
theorem create_bundle_ok_iff (program_id : Nat)
    (bundle_manager_account : AccountMeta) (bundle_manager : BundleManager)
    (authority : AccountMeta) (wallet_indexes : List Nat)
    (instructions_per_wallet : List Nat) (now : Int)
    (r : BundleManager × Bundle) :
    process_create_bundle program_id bundle_manager_account bundle_manager
        authority wallet_indexes instructions_per_wallet now = .ok r ↔
      (bundle_manager_account.owner = program_id ∧
       bundle_manager.is_paused = false ∧
       wallet_indexes.length ≤ 20 ∧
       wallet_indexes.length = instructions_per_wallet.length ∧
       authority.is_signer = true ∧
       r = (createdManager bundle_manager,
            createdBundle bundle_manager_account bundle_manager authority
              wallet_indexes instructions_per_wallet now)) := by
  unfold process_create_bundle createdManager createdBundle
  split
  · rename_i hOwner
    simp only [reduceCtorEq, false_iff]
    intro hAll
    exact hOwner hAll.1
  · split
    · rename_i hPaused
      simp only [reduceCtorEq, false_iff]
      intro hAll
      rw [hAll.2.1] at hPaused
      exact Bool.false_ne_true hPaused
    · split
      · rename_i hCap
        simp only [reduceCtorEq, false_iff]
        intro hAll
        exact absurd hCap (Nat.not_lt.mpr hAll.2.2.1)
      · split
        · rename_i hArity
          simp only [reduceCtorEq, false_iff]
          intro hAll
          exact hArity hAll.2.2.2.1
        · split
          · rename_i hSig
            simp only [reduceCtorEq, false_iff]
            intro hAll
            rw [hAll.2.2.2.2.1] at hSig
            exact Bool.true_eq_false.mp hSig
          · rename_i hOwner hPaused hCap hArity hSig
            constructor
            · intro hOk
              refine ⟨of_not_not hOwner,
                      Bool.not_eq_true _ ▸ hPaused, Nat.not_lt.mp hCap,
                      of_not_not hArity, Bool.not_eq_false _ ▸ hSig, ?_⟩
              exact (Except.ok.injEq _ _).mp hOk.symm
            · intro hAll
              rw [hAll.2.2.2.2.2]

/-- Claim C1, counterexample: a `CreateBundle` call whose signing
authority (key 2) differs from the authority bound in the loaded manager
record (key 1) does not fail with Unauthorized — it succeeds, creates the
bundle (bound to key 2), and bumps both manager counters. -/
theorem c1_counterexample :
    process_create_bundle 7 ⟨5, 7, false⟩ ⟨1, 4, 2, 3, 0, false, 9⟩
        ⟨2, 0, true⟩ [0] [1] 0 =
      .ok (⟨1, 4, 2, 4, 0, false, 10⟩,
           ⟨5, 2, 9, 0, 0, 0, 1, [0], [1], .Created, 0⟩) := by
  rfl

/-- Claim C1, amended: `process_create_bundle` compares the presented
authority against nothing — its only authority requirement is that the
authority account signed. With the other guards passing, any signer
succeeds (and the created bundle is bound to that signer), regardless of
the manager's bound authority; a non-signer fails with
MissingRequiredSignature and mutates nothing. -/
theorem c1_create_requires_only_signer (program_id : Nat)
    (acc : AccountMeta) (m : BundleManager) (auth : AccountMeta)
    (wi ipw : List Nat) (now : Int)
    (hOwner : acc.owner = program_id) (hPaused : m.is_paused = false)
    (hCap : wi.length ≤ 20) (hArity : wi.length = ipw.length) :
    (auth.is_signer = true →
      process_create_bundle program_id acc m auth wi ipw now =
        .ok (createdManager m, createdBundle acc m auth wi ipw now)) ∧
    (auth.is_signer = false →
      process_create_bundle program_id acc m auth wi ipw now =
        .error .MissingRequiredSignature) := by
  constructor
  · intro hSig
    exact (create_bundle_ok_iff program_id acc m auth wi ipw now _).mpr
      ⟨hOwner, hPaused, hCap, hArity, hSig, rfl⟩
  · intro hSig
    unfold process_create_bundle
    rw [if_neg (not_not_intro hOwner), if_neg (by simp [hPaused]),
        if_neg (Nat.not_lt.mpr hCap), if_neg (not_not_intro hArity),
        if_pos hSig]

/-- Claim C1 witness: the amended theorem applied at a concrete input
whose signer (key 2) differs from the manager's bound authority (key 1):
the call succeeds. -/
theorem c1_create_requires_only_signer_witness :
    process_create_bundle 7 accX mgrX ⟨2, 0, true⟩ [0] [1] 0 =
      .ok (createdManager mgrX,
           createdBundle accX mgrX ⟨2, 0, true⟩ [0] [1] 0) :=
  (c1_create_requires_only_signer 7 accX mgrX ⟨2, 0, true⟩ [0] [1] 0
    rfl rfl (by decide) rfl).1 rfl

/-- Claim C2, counterexample: with the manager's `active_bundles` at the
`u16` maximum 65535, a successful `CreateBundle` wraps it to 0 rather
than increasing it by exactly 1 (the source performs an unchecked `+= 1`
on a `u16`). -/
theorem c2_counterexample :
    process_create_bundle 7 ⟨5, 7, false⟩ ⟨1, 4, 2, 65535, 0, false, 9⟩
        ⟨1, 0, true⟩ [0] [1] 0 =
      .ok (⟨1, 4, 2, 0, 0, false, 10⟩,
           ⟨5, 1, 9, 0, 0, 0, 1, [0], [1], .Created, 0⟩) ∧
    (0 : Nat) ≠ 65535 + 1 :=
  ⟨rfl, by decide⟩

/-- Claim C2, amended: every successful `CreateBundle` returns, in one
atomic result, a bundle whose `bundle_id` is the manager's pre-call
`bundle_seed` together with the updated manager whose `bundle_seed` and
`active_bundles` are the old values plus 1 reduced modulo the field
widths (2^32 and 2^16) — i.e. increased by exactly 1 except at the type
maximum, where they wrap to 0. -/
theorem c2_create_updates_counters (program_id : Nat) (acc : AccountMeta)
    (m : BundleManager) (auth : AccountMeta) (wi ipw : List Nat)
    (now : Int) (m2 : BundleManager) (b : Bundle)
    (h : process_create_bundle program_id acc m auth wi ipw now =
          .ok (m2, b)) :
    b.bundle_id = m.bundle_seed ∧
    m2.bundle_seed = (m.bundle_seed + 1) % 4294967296 ∧
    m2.active_bundles = (m.active_bundles + 1) % 65536 := by
  have hr := ((create_bundle_ok_iff program_id acc m auth wi ipw now
    (m2, b)).mp h).2.2.2.2.2
  injection hr with h1 h2
  subst h1
  subst h2
  exact ⟨rfl, rfl, rfl⟩

/-- Claim C2 witness: the amended theorem applied at a concrete call. -/
theorem c2_create_updates_counters_witness :
    (createdBundle accX mgrX authX [0] [1] 0).bundle_id = mgrX.bundle_seed ∧
    (createdManager mgrX).bundle_seed = (mgrX.bundle_seed + 1) % 4294967296 ∧
    (createdManager mgrX).active_bundles = (mgrX.active_bundles + 1) % 65536 :=
  c2_create_updates_counters 7 accX mgrX authX [0] [1] 0
    (createdManager mgrX) (createdBundle accX mgrX authX [0] [1] 0)
    rfl

/-- Claim C3: the code bug, evaluated. An `Initialize` call against a
manager account already owned by the program (owner 7 = program id 7) is
not rejected: the handler succeeds and writes a fresh record — authority
rebound to the caller key 2, all counters and the sequence reset to 0,
whatever the existing record held — and it does not even require the
caller to have signed. The spec requires rejection with
AlreadyInitialized and no change to the existing record. -/
theorem c3_reinit_overwrites :
    process_init 7 ⟨5, 7, false⟩ ⟨2, 0, false⟩ 4 2 =
      .ok ⟨2, 4, 2, 0, 0, false, 0⟩ := by
  rfl

/-- Claim C4: the code bug, evaluated. `SetManagerStatus` is a no-op for
every manager record and every argument — it never flips `is_paused` (no
code path in the program ever sets it to true, although the source's own
instruction documentation says the command pauses/unpauses the manager).
Concretely: after `SetManagerStatus(true)` on `mgrX` the record is
unchanged and still unpaused, so the subsequent `CreateBundle` — which
the claim says must fail with ManagerPaused — succeeds. -/
theorem c4_set_status_is_noop :
    (∀ (m : BundleManager) (p : Bool),
        process_set_manager_status m p = .ok m) ∧
    process_set_manager_status mgrX true = .ok mgrX ∧
    mgrX.is_paused = false ∧
    process_create_bundle 7 accX mgrX authX [0] [1] 0 =
      .ok (createdManager mgrX, createdBundle accX mgrX authX [0] [1] 0) :=
  ⟨fun _ _ => rfl, rfl, rfl, rfl⟩

/-- Claim C5: the code bug, evaluated. `ExecuteBundle` is a no-op for
every manager, bundle and compute budget — it performs no completeness
check and has no error path, so it never fails with IncompleteBundle.
Concretely: `bundleX` declares 2 instructions for wallet 0 and 1 for
wallet 1, yet with only one instruction record present (wallet 0, a
shortfall on both wallets — `bundleComplete` is false) the call — which
the claim says must fail with IncompleteBundle — succeeds, returning
both records unchanged. -/
theorem c5_execute_is_noop :
    (∀ (m : BundleManager) (b : Bundle) (mcu : Nat),
        process_execute_bundle m b mcu = .ok (m, b)) ∧
    process_execute_bundle mgrX bundleX 1000 = .ok (mgrX, bundleX) ∧
    bundleComplete bundleX [recX] = false ∧
    recordedCount [recX] 0 < 2 :=
  ⟨fun _ _ _ => rfl, rfl, by decide, by decide⟩

/-- Claim C6, counterexample: a `CreateBundle` call with 21 wallet
indexes and 0 instruction counts has mismatched lengths, yet fails with
`Custom 2` (TooManyWallets / CapacityExceeded), not `Custom 3`
(ArityMismatch): the source checks the 20-wallet cap before the arity
check, so the error is not ArityMismatch regardless of the mismatch. -/
theorem c6_counterexample :
    process_create_bundle 7 accX mgrX authX (List.range 21) [] 0 =
      .error (.Custom 2) ∧
    ProgErr.Custom 2 ≠ ProgErr.Custom 3 ∧
    (List.range 21).length ≠ ([] : List Nat).length :=
  ⟨rfl, by decide, by decide⟩

/-- Claim C6, amended: a `CreateBundle` call with mismatched array
lengths fails with ArityMismatch (`Custom 3`) — and mutates nothing —
provided the manager is not paused and `len(walletIndexes) ≤ 20`; the
pause and capacity checks precede the arity check in the source, so
those inputs fail with the earlier error instead. -/
theorem c6_arity_mismatch (program_id : Nat) (acc : AccountMeta)
    (m : BundleManager) (auth : AccountMeta) (wi ipw : List Nat)
    (now : Int)
    (hOwner : acc.owner = program_id) (hPaused : m.is_paused = false)
    (hCap : wi.length ≤ 20) (hNe : wi.length ≠ ipw.length) :
    process_create_bundle program_id acc m auth wi ipw now =
      .error (.Custom 3) := by
  unfold process_create_bundle
  rw [if_neg (not_not_intro hOwner), if_neg (by simp [hPaused]),
      if_neg (Nat.not_lt.mpr hCap), if_pos hNe]

/-- Claim C6 witness: the amended theorem at a concrete mismatched call
(1 wallet index, 0 counts). -/
theorem c6_arity_mismatch_witness :
    process_create_bundle 7 accX mgrX authX [0] [] 0 =
      .error (.Custom 3) :=
  c6_arity_mismatch 7 accX mgrX authX [0] [] 0 rfl rfl (by decide)
    (by decide)

/-- Claim C7, counterexample: `process_create_bundle` never checks
distinctness — a call whose `wallet_indexes` is the duplicate list
`[3, 3]` succeeds, and the created bundle record stores `[3, 3]`
verbatim (not a `Nodup` list). -/
theorem c7_counterexample :
    process_create_bundle 7 accX mgrX authX [3, 3] [1, 2] 0 =
      .ok (⟨1, 4, 2, 4, 0, false, 10⟩,
           ⟨5, 1, 9, 0, 0, 0, 2, [3, 3], [1, 2], .Created, 0⟩) ∧
    ¬ ([3, 3] : List Nat).Nodup :=
  ⟨rfl, by decide⟩

/-- Claim C7, amended: distinctness of `wallet_indexes` plays no role in
`CreateBundle`. On a manager account owned by the program, the call
succeeds exactly when the manager is unpaused, the lengths are at most
20 and equal, and the authority signed — with no condition on duplicate
entries, so created bundle records may hold duplicate wallet indexes. -/
theorem c7_no_distinctness_check (program_id : Nat) (acc : AccountMeta)
    (m : BundleManager) (auth : AccountMeta) (wi ipw : List Nat)
    (now : Int) (hOwner : acc.owner = program_id) :
    createOk (process_create_bundle program_id acc m auth wi ipw now) =
        true ↔
      (m.is_paused = false ∧ wi.length ≤ 20 ∧
       wi.length = ipw.length ∧ auth.is_signer = true) := by
  constructor
  · intro h
    obtain ⟨r, hr⟩ : ∃ r,
        process_create_bundle program_id acc m auth wi ipw now = .ok r := by
      cases hE : process_create_bundle program_id acc m auth wi ipw now with
      | ok r => exact ⟨r, rfl⟩
      | error e => rw [hE] at h; exact absurd h (by simp [createOk])
    have hAll := (create_bundle_ok_iff program_id acc m auth wi ipw now
      r).mp hr
    exact ⟨hAll.2.1, hAll.2.2.1, hAll.2.2.2.1, hAll.2.2.2.2.1⟩
  · rintro ⟨h1, h2, h3, h4⟩
    rw [(create_bundle_ok_iff program_id acc m auth wi ipw now _).mpr
      ⟨hOwner, h1, h2, h3, h4, rfl⟩]
    rfl

/-- Claim C7 witness: the amended characterization instantiated at the
duplicate-index call `[3, 3]`, whose right-hand side holds, so the call
succeeds despite the duplicates. -/
theorem c7_no_distinctness_check_witness :
    createOk (process_create_bundle 7 accX mgrX authX [3, 3] [1, 2] 0) =
        true ↔
      (mgrX.is_paused = false ∧ ([3, 3] : List Nat).length ≤ 20 ∧
       ([3, 3] : List Nat).length = ([1, 2] : List Nat).length ∧
       authX.is_signer = true) :=
  c7_no_distinctness_check 7 accX mgrX authX [3, 3] [1, 2] 0 rfl

/-- Claim C8, counterexample: with a manager whose `bundle_size` is 1, a
`CreateBundle` declaring 2 wallets succeeds — the handler never consults
`bundle_size`; the only cap it enforces is the hard-coded 20. -/
theorem c8_counterexample :
    process_create_bundle 7 accX mgrSmall authX [0, 1] [1, 1] 0 =
      .ok (⟨1, 1, 2, 1, 0, false, 1⟩,
           ⟨5, 1, 0, 0, 0, 0, 2, [0, 1], [1, 1], .Created, 0⟩) ∧
    ¬ ([0, 1] : List Nat).length ≤ mgrSmall.bundle_size :=
  ⟨rfl, by decide⟩

/-- Claim C8, amended: the maximum number of wallets per bundle is the
hard-coded constant 20, not the manager's `bundle_size` field: every
successful `CreateBundle` has `len(walletIndexes) ≤ 20`, and
`bundle_size` is never enforced. -/
theorem c8_cap_is_twenty (program_id : Nat) (acc : AccountMeta)
    (m : BundleManager) (auth : AccountMeta) (wi ipw : List Nat)
    (now : Int) (m2 : BundleManager) (b : Bundle)
    (h : process_create_bundle program_id acc m auth wi ipw now =
          .ok (m2, b)) :
    wi.length ≤ 20 :=
  ((create_bundle_ok_iff program_id acc m auth wi ipw now (m2, b)).mp
    h).2.2.1

/-- Claim C8 witness: the amended theorem applied to the concrete
successful call of the counterexample setting. -/
theorem c8_cap_is_twenty_witness : ([0, 1] : List Nat).length ≤ 20 :=
  c8_cap_is_twenty 7 accX mgrSmall authX [0, 1] [1, 1] 0
    ⟨1, 1, 2, 1, 0, false, 1⟩
    ⟨5, 1, 0, 0, 0, 0, 2, [0, 1], [1, 1], .Created, 0⟩ rfl

/-- Claim C9: frame condition of a successful `CreateBundle` on the
manager record — `authority`, `bundle_size`, `priority_fee_multiplier`,
`is_paused` and `total_bundles_executed` are unchanged; the only fields
that change are `active_bundles` and `bundle_seed` (each bumped by 1
modulo its width). -/
theorem c9_create_manager_frame (program_id : Nat) (acc : AccountMeta)
    (m : BundleManager) (auth : AccountMeta) (wi ipw : List Nat)
    (now : Int) (m2 : BundleManager) (b : Bundle)
    (h : process_create_bundle program_id acc m auth wi ipw now =
          .ok (m2, b)) :
    m2.authority = m.authority ∧
    m2.bundle_size = m.bundle_size ∧
    m2.priority_fee_multiplier = m.priority_fee_multiplier ∧
    m2.is_paused = m.is_paused ∧
    m2.total_bundles_executed = m.total_bundles_executed ∧
    m2.active_bundles = (m.active_bundles + 1) % 65536 ∧
    m2.bundle_seed = (m.bundle_seed + 1) % 4294967296 := by
  have hr := ((create_bundle_ok_iff program_id acc m auth wi ipw now
    (m2, b)).mp h).2.2.2.2.2
  injection hr with h1 h2
  subst h1
  exact ⟨rfl, rfl, rfl, rfl, rfl, rfl, rfl⟩

/-- Claim C9 witness: the frame condition at a concrete successful
call. -/
theorem c9_create_manager_frame_witness :
    (createdManager mgrX).authority = mgrX.authority ∧
    (createdManager mgrX).bundle_size = mgrX.bundle_size ∧
    (createdManager mgrX).priority_fee_multiplier =
      mgrX.priority_fee_multiplier ∧
    (createdManager mgrX).is_paused = mgrX.is_paused ∧
    (createdManager mgrX).total_bundles_executed =
      mgrX.total_bundles_executed ∧
    (createdManager mgrX).active_bundles = (mgrX.active_bundles + 1) % 65536 ∧
    (createdManager mgrX).bundle_seed = (mgrX.bundle_seed + 1) % 4294967296 :=
  c9_create_manager_frame 7 accX mgrX authX [0] [1] 0
    (createdManager mgrX) (createdBundle accX mgrX authX [0] [1] 0) rfl

/-- Claim C10: every bundle record produced by a successful
`CreateBundle` has `priority_fee = 0` — the source hard-codes the field
to 0, never reading `priority_fee_multiplier`. -/
theorem c10_priority_fee_zero (program_id : Nat) (acc : AccountMeta)
    (m : BundleManager) (auth : AccountMeta) (wi ipw : List Nat)
    (now : Int) (m2 : BundleManager) (b : Bundle)
    (h : process_create_bundle program_id acc m auth wi ipw now =
          .ok (m2, b)) :
    b.priority_fee = 0 := by
  have hr := ((create_bundle_ok_iff program_id acc m auth wi ipw now
    (m2, b)).mp h).2.2.2.2.2
  injection hr with h1 h2
  subst h2
  rfl

/-- Claim C10 witness: a successful call under a manager whose
`priority_fee_multiplier` is 200 still yields `priority_fee = 0`. -/
theorem c10_priority_fee_zero_witness :
    (createdBundle accX ⟨1, 4, 200, 3, 0, false, 9⟩ authX [0] [1] 0).priority_fee = 0 :=
  c10_priority_fee_zero 7 accX ⟨1, 4, 200, 3, 0, false, 9⟩ authX [0] [1] 0
    (createdManager ⟨1, 4, 200, 3, 0, false, 9⟩)
    (createdBundle accX ⟨1, 4, 200, 3, 0, false, 9⟩ authX [0] [1] 0) rfl
end BundleBots
